import Mathlib

/-!
Verification of the fitness-tracker homework module (`homework.py`).

The module computes distance, mean speed and spent calories for three
workout kinds (Running, SportsWalking, Swimming), dispatches raw sensor
packages to the right record constructor, and formats a fixed-template
summary line.  Numeric values are modelled as rationals; the Python
float floor division `//` is modelled as the floor of the exact
quotient, and `"%.3f"` formatting as fixed-point rendering with three
decimals using round-half-to-even.
-/

namespace Homework

/-- Module-level tag constants `SWM`, `RUN`, `WLK`. -/
def SWM : String := "SWM"

def RUN : String := "RUN"

def WLK : String := "WLK"

/-- `Training.M_IN_KM = 1000`. -/
def M_IN_KM : ℚ := 1000

/-- `Training.MINUTES_IN_HOUR = 60`. -/
def MINUTES_IN_HOUR : ℚ := 60

/-- Python float floor division `a // b`, exact on rationals. -/
def floordiv (a b : ℚ) : ℚ := ⌊a / b⌋

/-- Rounding to the nearest integer, ties to even, as in `"%.3f"`. -/
def roundHalfEven (q : ℚ) : ℤ :=
  if q - ⌊q⌋ < 1 / 2 then ⌊q⌋
  else if 1 / 2 < q - ⌊q⌋ then ⌊q⌋ + 1
  else if ⌊q⌋ % 2 = 0 then ⌊q⌋ else ⌊q⌋ + 1

/-- Left-pad a three-digit fractional part with zeros. -/
def pad3 (n : Nat) : String :=
  if n < 10 then "00" ++ toString n
  else if n < 100 then "0" ++ toString n
  else toString n

/-- Fixed-point rendering with exactly three decimal digits (`"%.3f"`). -/
def format3 (q : ℚ) : String :=
  (if roundHalfEven (q * 1000) < 0 then "-" else "")
    ++ toString ((roundHalfEven (q * 1000)).natAbs / 1000)
    ++ "." ++ pad3 ((roundHalfEven (q * 1000)).natAbs % 1000)

/-- The `InfoMessage` dataclass. -/
structure InfoMessage where
  training_type : String
  duration : ℚ
  distance : ℚ
  speed : ℚ
  calories : ℚ
deriving DecidableEq

/-- `InfoMessage.get_message`: the `TEXT` template with every numeric
field substituted via `"%.3f"` formatting. -/
def InfoMessage.get_message (m : InfoMessage) : String :=
  "Тип тренировки: " ++ m.training_type
    ++ "; Длительность: " ++ format3 m.duration
    ++ " ч.; Дистанция: " ++ format3 m.distance
    ++ " км; Ср. скорость: " ++ format3 m.speed
    ++ " км/ч; Потрачено ккал: " ++ format3 m.calories ++ "."

/-- The `Training` class hierarchy as a tagged union: `Running` adds no
field, `SportsWalking` adds `height`, `Swimming` adds `length_pool` and
`count_pool`. -/
inductive Training where
  | running (action duration weight : ℚ)
  | sportsWalking (action duration weight height : ℚ)
  | swimming (action duration weight length_pool count_pool : ℚ)
deriving DecidableEq

/-- Common field `action`. -/
def Training.action : Training → ℚ
  | .running a _ _ => a
  | .sportsWalking a _ _ _ => a
  | .swimming a _ _ _ _ => a

/-- Common field `duration`. -/
def Training.duration : Training → ℚ
  | .running _ d _ => d
  | .sportsWalking _ d _ _ => d
  | .swimming _ d _ _ _ => d

/-- Common field `weight`. -/
def Training.weight : Training → ℚ
  | .running _ _ w => w
  | .sportsWalking _ _ w _ => w
  | .swimming _ _ w _ _ => w

/-- Class constant `LEN_STEP`: 0.65 on the base class, overridden to
1.38 by `Swimming`. -/
def Training.LEN_STEP : Training → ℚ
  | .swimming _ _ _ _ _ => 1.38
  | _ => 0.65

/-- `Training.get_distance`: `action * LEN_STEP / M_IN_KM` (inherited by
all three subclasses). -/
def Training.get_distance (t : Training) : ℚ :=
  t.action * t.LEN_STEP / M_IN_KM

/-- `Training.get_mean_speed`: `get_distance() / duration`, overridden by
`Swimming` to `length_pool * count_pool / M_IN_KM / duration`. -/
def Training.get_mean_speed : Training → ℚ
  | .swimming _ d _ lp cp => lp * cp / M_IN_KM / d
  | t => t.get_distance / t.duration

/-- `get_spent_calories`, one formula per concrete subclass (the base
method only raises `NotImplementedError`, which no variant reaches). -/
def Training.get_spent_calories : Training → ℚ
  | t@(.running _ d w) =>
      (18 * t.get_mean_speed - 20) * w / M_IN_KM * d * MINUTES_IN_HOUR
  | t@(.sportsWalking _ d w h) =>
      (0.035 * w + floordiv (t.get_mean_speed ^ 2) h * 0.029 * w)
        * d * MINUTES_IN_HOUR
  | t@(.swimming _ _ w _ _) =>
      (t.get_mean_speed + 1.1) * 2 * w

/-- `self.__class__.__name__` of the concrete subclass. -/
def Training.className : Training → String
  | .running _ _ _ => "Running"
  | .sportsWalking _ _ _ _ => "SportsWalking"
  | .swimming _ _ _ _ _ => "Swimming"

/-- `Training.show_training_info`: builds the `InfoMessage` from the
class name and the four computed quantities. -/
def Training.show_training_info (t : Training) : InfoMessage :=
  ⟨t.className, t.duration, t.get_distance, t.get_mean_speed,
    t.get_spent_calories⟩

/-- How `read_package` can fail: an unrecognized tag raises
`ValueError` with the unsupported-workout-type text; a recognized tag
with the wrong number of raw arguments fails at positional construction
(`TypeError`). -/
inductive ReadError where
  | unsupportedWorkoutType
  | arityMismatch
deriving DecidableEq

/-- `read_package`: look the tag up in the fixed mapping and apply the
raw arguments positionally to the selected constructor. -/
def read_package (workout_type : String) (data : List ℚ) :
    Except ReadError Training :=
  if workout_type = SWM then
    match data with
    | [a, d, w, lp, cp] => .ok (.swimming a d w lp cp)
    | _ => .error .arityMismatch
  else if workout_type = RUN then
    match data with
    | [a, d, w] => .ok (.running a d w)
    | _ => .error .arityMismatch
  else if workout_type = WLK then
    match data with
    | [a, d, w, h] => .ok (.sportsWalking a d w h)
    | _ => .error .arityMismatch
  else .error .unsupportedWorkoutType

/-! Helper lemmas for evaluating the formatter on concrete rationals. -/

lemma roundHalfEven_coe (n : ℤ) : roundHalfEven (n : ℚ) = n := by
  unfold roundHalfEven
  simp [Int.floor_intCast, sub_self]

lemma roundHalfEven_eq (q : ℚ) (n : ℤ) (h : q = (n : ℚ)) :
    roundHalfEven q = n :=
  h ▸ roundHalfEven_coe n

lemma format3_eq (q : ℚ) (n : ℤ) (h : q * 1000 = (n : ℚ)) :
    format3 q = (if n < 0 then "-" else "")
      ++ toString (n.natAbs / 1000) ++ "." ++ pad3 (n.natAbs % 1000) := by
  unfold format3
  rw [roundHalfEven_eq _ n h]

/-! The claims. -/

/-- C1: for every Running record, `get_spent_calories` returns exactly
`(18 * get_mean_speed() - 20) * weight / 1000 * duration * 60`. -/
theorem running_spent_calories_formula (a d w : ℚ) :
    (Training.running a d w).get_spent_calories =
      (18 * (Training.running a d w).get_mean_speed - 20)
        * w / 1000 * d * 60 := rfl

/-- C2: for every SportsWalking record, `get_spent_calories` returns
exactly `(0.035 * weight + (get_mean_speed() ** 2 // height) * 0.029 *
weight) * duration * 60`, where `//` is floor division applied after
squaring; in particular a mean speed of 5.0 with height 180 makes the
floor-division term 0, not a fraction. -/
theorem sportsWalking_spent_calories_formula :
    (∀ a d w h : ℚ, (Training.sportsWalking a d w h).get_spent_calories =
      (0.035 * w
          + floordiv ((Training.sportsWalking a d w h).get_mean_speed ^ 2) h
            * 0.029 * w) * d * 60)
    ∧ floordiv ((5 : ℚ) ^ 2) 180 = 0 := by
  refine ⟨fun a d w h => rfl, ?_⟩
  have h0 : ⌊(5 : ℚ) ^ 2 / 180⌋ = 0 := Int.floor_eq_iff.mpr (by norm_num)
  simp [floordiv, h0]

/-- C3: Running and SportsWalking use the inherited mean speed
`get_distance() / duration`; Swimming overrides it to
`length_pool * count_pool / 1000 / duration` while its `get_distance`
keeps the stroke-based formula `action * 1.38 / 1000`, so distance and
speed times duration can disagree (they do on the sample record). -/
theorem mean_speed_default_and_swimming_override :
    (∀ a d w : ℚ, (Training.running a d w).get_mean_speed =
        (Training.running a d w).get_distance / d)
    ∧ (∀ a d w h : ℚ, (Training.sportsWalking a d w h).get_mean_speed =
        (Training.sportsWalking a d w h).get_distance / d)
    ∧ (∀ a d w lp cp : ℚ, (Training.swimming a d w lp cp).get_mean_speed =
        lp * cp / 1000 / d)
    ∧ (∀ a d w lp cp : ℚ, (Training.swimming a d w lp cp).get_distance =
        a * 1.38 / 1000)
    ∧ (Training.swimming 720 1 80 25 40).get_distance ≠
        (Training.swimming 720 1 80 25 40).get_mean_speed
          * (Training.swimming 720 1 80 25 40).duration := by
  refine ⟨fun a d w => rfl, fun a d w h => rfl, fun a d w lp cp => rfl,
    fun a d w lp cp => rfl, ?_⟩
  show (720 : ℚ) * 1.38 / 1000 ≠ 25 * 40 / 1000 / 1 * 1
  norm_num

/-- C4: for every Swimming record, `get_spent_calories` returns exactly
`(get_mean_speed() + 1.1) * 2 * weight`. -/
theorem swimming_spent_calories_formula (a d w lp cp : ℚ) :
    (Training.swimming a d w lp cp).get_spent_calories =
      ((Training.swimming a d w lp cp).get_mean_speed + 1.1) * 2 * w := rfl

/-- C5: every record computes `get_distance` as
`action * LEN_STEP / 1000`, with `LEN_STEP` 0.65 for Running and
SportsWalking and 1.38 for Swimming. -/
theorem get_distance_formula :
    (∀ t : Training, t.get_distance = t.action * t.LEN_STEP / 1000)
    ∧ (∀ a d w : ℚ, (Training.running a d w).LEN_STEP = 0.65)
    ∧ (∀ a d w h : ℚ, (Training.sportsWalking a d w h).LEN_STEP = 0.65)
    ∧ (∀ a d w lp cp : ℚ, (Training.swimming a d w lp cp).LEN_STEP = 1.38) :=
  ⟨fun _ => rfl, fun _ _ _ => rfl, fun _ _ _ _ => rfl, fun _ _ _ _ _ => rfl⟩

/-- C6: `read_package` builds a Swimming record from tag `"SWM"` with 5
arguments, a Running record from `"RUN"` with 3, a SportsWalking record
from `"WLK"` with 4, each positionally from the raw arguments, and
fails with the unsupported-workout-type error on every other tag. -/
theorem read_package_dispatch :
    (∀ a d w lp cp : ℚ, read_package "SWM" [a, d, w, lp, cp] =
        .ok (.swimming a d w lp cp))
    ∧ (∀ a d w : ℚ, read_package "RUN" [a, d, w] = .ok (.running a d w))
    ∧ (∀ a d w h : ℚ, read_package "WLK" [a, d, w, h] =
        .ok (.sportsWalking a d w h))
    ∧ (∀ (tag : String) (data : List ℚ),
        tag ≠ "SWM" → tag ≠ "RUN" → tag ≠ "WLK" →
        read_package tag data = .error .unsupportedWorkoutType) := by
  refine ⟨fun a d w lp cp => rfl, fun a d w => rfl, fun a d w h => rfl, ?_⟩
  intro tag data h1 h2 h3
  simp [read_package, SWM, RUN, WLK, h1, h2, h3]

/-- Witness for C6: the unrecognized tag `"XYZ"` is rejected with the
unsupported-workout-type error. -/
theorem read_package_dispatch_witness :
    read_package "XYZ" [] = .error .unsupportedWorkoutType :=
  read_package_dispatch.2.2.2 "XYZ" [] (by decide) (by decide) (by decide)

/-- C7: every summary line is the fixed template over the class name
and the four quantities rendered with exactly three decimals; the
package `("RUN", [9000, 1, 75])` yields the line with type `Running`,
duration `1.000 ч.`, distance `5.850 км`, speed `5.850 км/ч` and
calories `383.850`. -/
theorem show_training_info_message_format :
    (∀ t : Training, t.show_training_info.get_message =
      "Тип тренировки: " ++ t.className
        ++ "; Длительность: " ++ format3 t.duration
        ++ " ч.; Дистанция: " ++ format3 t.get_distance
        ++ " км; Ср. скорость: " ++ format3 t.get_mean_speed
        ++ " км/ч; Потрачено ккал: " ++ format3 t.get_spent_calories ++ ".")
    ∧ read_package "RUN" [9000, 1, 75] = .ok (.running 9000 1 75)
    ∧ (Training.running 9000 1 75).show_training_info.get_message =
      "Тип тренировки: Running; Длительность: 1.000 ч.; Дистанция: 5.850 км; Ср. скорость: 5.850 км/ч; Потрачено ккал: 383.850." := by
  refine ⟨fun t => rfl, rfl, ?_⟩
  have f1 : format3 (Training.running 9000 1 75).duration = "1.000" := by
    rw [format3_eq _ 1000 (by show (1 : ℚ) * 1000 = ((1000 : ℤ) : ℚ); norm_num)]
    decide
  have f2 : format3 (Training.running 9000 1 75).get_distance = "5.850" := by
    rw [format3_eq _ 5850
      (by show (9000 : ℚ) * 0.65 / 1000 * 1000 = ((5850 : ℤ) : ℚ); norm_num)]
    decide
  have f3 : format3 (Training.running 9000 1 75).get_mean_speed = "5.850" := by
    rw [format3_eq _ 5850
      (by show (9000 : ℚ) * 0.65 / 1000 / 1 * 1000 = ((5850 : ℤ) : ℚ); norm_num)]
    decide
  have f4 : format3 (Training.running 9000 1 75).get_spent_calories
      = "383.850" := by
    rw [format3_eq _ 383850
      (by show (18 * ((9000 : ℚ) * 0.65 / 1000 / 1) - 20) * 75 / 1000 * 1 * 60
            * 1000 = ((383850 : ℤ) : ℚ)
          norm_num)]
    decide
  simp only [Training.show_training_info, InfoMessage.get_message,
    Training.className]
  rw [f1, f2, f3, f4]
  decide

/-- C8: the Running record with 15000 actions, duration 1 and weight 75
has distance exactly 9.75 km and mean speed exactly 9.75 km/h. -/
theorem running_sample_distance_speed :
    (Training.running 15000 1 75).get_distance = 9.75
    ∧ (Training.running 15000 1 75).get_mean_speed = 9.75 := by
  constructor
  · show (15000 : ℚ) * 0.65 / 1000 = 9.75
    norm_num
  · show (15000 : ℚ) * 0.65 / 1000 / 1 = 9.75
    norm_num

/-- C9: two Swimming records agreeing on pool length, pool count and
duration but differing in action count (weights unconstrained) get the
same mean speed. -/
theorem swimming_mean_speed_independent_of_action
    (a₁ a₂ d w₁ w₂ lp cp : ℚ) (h : a₁ ≠ a₂) :
    (Training.swimming a₁ d w₁ lp cp).get_mean_speed =
      (Training.swimming a₂ d w₂ lp cp).get_mean_speed := rfl

/-- Witness for C9: the sample pool data with action counts 720 and 721
yields equal mean speeds. -/
theorem swimming_mean_speed_independent_of_action_witness :
    (Training.swimming 720 1 80 25 40).get_mean_speed =
      (Training.swimming 721 1 80 25 40).get_mean_speed :=
  swimming_mean_speed_independent_of_action 720 721 1 80 80 25 40 (by decide)

/-- C10: there is a Running record meeting the invariants (nonnegative
action count, positive duration and weight) with mean speed below 20/18
km/h whose `get_spent_calories` is strictly negative. -/
theorem running_negative_calories_exists :
    ∃ a d w : ℚ, 0 ≤ a ∧ 0 < d ∧ 0 < w
      ∧ (Training.running a d w).get_mean_speed < 20 / 18
      ∧ (Training.running a d w).get_spent_calories < 0 := by
  refine ⟨0, 1, 75, le_refl 0, by norm_num, by norm_num, ?_, ?_⟩
  · show (0 : ℚ) * 0.65 / 1000 / 1 < 20 / 18
    norm_num
  · show (18 * ((0 : ℚ) * 0.65 / 1000 / 1) - 20) * 75 / 1000 * 1 * 60 < 0
    norm_num

end Homework
